import Mathlib

/-!
# Verification of two home-automation platform adapters

A shallow embedding, in Lean 4, of two platform adapter modules:

* `homeassistant/components/sensor/forecast.py` — a weather sensor platform built on a
  throttled forecast cache (`ForeCastData`) and per-field sensor entities
  (`ForeCastSensor`);
* `homeassistant/components/garage_door/zwave.py` — a Z-Wave garage door entity
  (`ZwaveGarageDoor`).

Numbers that the Python code handles as floats are modelled as exact rationals (`ℚ`);
Python `round(x, 1)` is modelled as exact round-half-to-even at one decimal digit.
Machine time is modelled as a natural number of seconds.  Fallible calls are modelled
with `Except` / `Option` values.  The `Throttle` decorator from `homeassistant.util`
is not part of this fragment's sources and is modelled from the spec (see `fires`).
-/

/-! ## Rounding: exact model of Python `round(x, 1)` -/

/-- Round-half-to-even of a rational to an integer, the tie-breaking rule of Python's
built-in `round` (modulo binary floating-point representation, which this exact model
deliberately abstracts away). -/
def roundHalfEven (q : ℚ) : ℤ :=
  let f : ℤ := ⌊q⌋
  let r : ℚ := q - f
  if r < 1 / 2 then f
  else if 1 / 2 < r then f + 1
  else if f % 2 = 0 then f else f + 1

/-- Python `round(x, 1)`: round to one decimal digit. -/
def round1 (x : ℚ) : ℚ := (roundHalfEven (10 * x) : ℚ) / 10

/-! ## `convert_to_camel` (forecast.py)

Python strings are modelled as `List Char`; `data.split('_')` is `splitU`,
`str.title()` is `titleChars false` (uppercase every alphabetic character that starts
an alphabetic run, lowercase the other alphabetic characters). -/

/-- Python `data.split('_')` on the character list of `data`. -/
def splitU : List Char → List (List Char)
  | [] => [[]]
  | c :: rest =>
    if c = '_' then [] :: splitU rest
    else
      match splitU rest with
      | [] => [[c]]
      | w :: ws => (c :: w) :: ws

/-- Python `str.title()` on a character list; the `Bool` argument records whether the
previous character was alphabetic (cased). -/
def titleChars : Bool → List Char → List Char
  | _, [] => []
  | prev, c :: rest =>
    (if c.isAlpha then (if prev then c.toLower else c.toUpper) else c)
      :: titleChars c.isAlpha rest

/-- `convert_to_camel` from forecast.py: split on underscores, keep the first
component, title-case the remaining components, and concatenate. -/
def convert_to_camel (data : String) : String :=
  match splitU data.data with
  | [] => ""
  | c0 :: rest => String.mk (c0 ++ (rest.map (titleChars false)).flatten)

/-! ## The `SENSOR_TYPES` table and unit lookup (forecast.py) -/

/-- `SENSOR_TYPES` from forecast.py.  Each row is
`[display name, si unit, us unit, ca unit, uk unit, uk2 unit]`; `None` is `none`.
The degree-sign entries reproduce the source file's literal bytes. -/
def SENSOR_TYPES : List (String × List (Option String)) :=
  [("summary", [some "Summary", none, none, none, none, none]),
   ("minutely_summary", [some "Minutely Summary", none, none, none, none, none]),
   ("hourly_summary", [some "Hourly Summary", none, none, none, none, none]),
   ("daily_summary", [some "Daily Summary", none, none, none, none, none]),
   ("icon", [some "Icon", none, none, none, none, none]),
   ("nearest_storm_distance",
    [some "Nearest Storm Distance", some "km", some "m", some "km", some "km", some "m"]),
   ("nearest_storm_bearing",
    [some "Nearest Storm Bearing", some "Â°", some "Â°", some "Â°", some "Â°", some "Â°"]),
   ("precip_type", [some "Precip", none, none, none, none, none]),
   ("precip_intensity",
    [some "Precip Intensity", some "mm", some "in", some "mm", some "mm", some "mm"]),
   ("precip_probability",
    [some "Precip Probability", some "%", some "%", some "%", some "%", some "%"]),
   ("temperature",
    [some "Temperature", some "Â°C", some "Â°F", some "Â°C", some "Â°C", some "Â°C"]),
   ("apparent_temperature",
    [some "Apparent Temperature", some "Â°C", some "Â°F", some "Â°C", some "Â°C", some "Â°C"]),
   ("dew_point",
    [some "Dew point", some "Â°C", some "Â°F", some "Â°C", some "Â°C", some "Â°C"]),
   ("wind_speed",
    [some "Wind Speed", some "m/s", some "mph", some "km/h", some "mph", some "mph"]),
   ("wind_bearing",
    [some "Wind Bearing", some "Â°", some "Â°", some "Â°", some "Â°", some "Â°"]),
   ("cloud_cover",
    [some "Cloud Coverage", some "%", some "%", some "%", some "%", some "%"]),
   ("humidity", [some "Humidity", some "%", some "%", some "%", some "%", some "%"]),
   ("pressure",
    [some "Pressure", some "mbar", some "mbar", some "mbar", some "mbar", some "mbar"]),
   ("visibility",
    [some "Visibility", some "km", some "m", some "km", some "km", some "m"]),
   ("ozone", [some "Ozone", some "DU", some "DU", some "DU", some "DU", some "DU"])]

/-- The dictionary-with-default lookup inside `update_unit_of_measurement`:
`{'si': 1, 'us': 2, 'ca': 3, 'uk': 4, 'uk2': 5}.get(unit_system, 1)`. -/
def unitIndex (us : String) : Nat :=
  if us = "si" then 1
  else if us = "us" then 2
  else if us = "ca" then 3
  else if us = "uk" then 4
  else if us = "uk2" then 5
  else 1

/-- `ForeCastSensor.update_unit_of_measurement`, as a function of the sensor's field
key and the cache's reported unit system:
`self._unit_of_measurement = SENSOR_TYPES[self.type][unit_index]`.  A key outside the
table would raise in Python; setup only constructs sensors for keys in the table. -/
def update_unit_of_measurement (sensorType us : String) : Option String :=
  match SENSOR_TYPES.lookup sensorType with
  | some row => row.getD (unitIndex us) none
  | none => none

/-! ## `ForeCastSensor.get_currently_state` (forecast.py)

The "currently" data point is modelled by its attribute map (`List (String × ℚ)`);
`getattr(data, lookup_type, 0)` is an association lookup defaulting to `0`. -/

/-- `ForeCastSensor.get_currently_state`: look the camel-cased field key up on the
"currently" data point, then rescale / round according to the field key. -/
def get_currently_state (sensorType : String) (attrs : List (String × ℚ)) : ℚ :=
  let lookupType := convert_to_camel sensorType
  let state := (attrs.lookup lookupType).getD 0
  if sensorType ∈ ["precip_probability", "cloud_cover", "humidity"] then
    round1 (state * 100)
  else if sensorType ∈ ["dew_point", "temperature", "apparent_temperature",
                        "pressure", "ozone"] then
    round1 state
  else state

/-! ## Forecast payloads and the fetch body of `ForeCastData.update` -/

/-- One time-scoped sub-view of a forecast payload (the object returned by
`data.currently()`, `data.minutely()`, `data.hourly()` or `data.daily()`): a summary
text and named numeric attributes. -/
structure SubView where
  summary : String
  attrs : List (String × ℚ)
deriving DecidableEq, Repr

/-- A full forecast payload as returned by `forecastio.load_forecast`: the
`json['flags']['units']` flag and the four sub-views. -/
structure Payload where
  unitsFlag : String
  currently : SubView
  minutely : SubView
  hourly : SubView
  daily : SubView
deriving DecidableEq, Repr

/-- The exception classes caught inside `ForeCastData.update`:
`(ConnectError, HTTPError, Timeout, ValueError)`. -/
inductive FetchErr where
  | connectError (msg : String)
  | httpError (msg : String)
  | timeout (msg : String)
  | valueError (msg : String)
deriving DecidableEq, Repr

/-- The `ValueError("Unable to init Forecast.io. - %s", error)` raised by
`ForeCastData.update` on a failed fetch: format text plus the underlying cause. -/
structure InitError where
  message : String
  cause : FetchErr
deriving DecidableEq, Repr

/-- The state of a `ForeCastData` object.  The `data`, `unit_system` and `data_*`
fields are the Python attributes; the `last*` fields are the per-operation
last-success timestamps kept by the five `Throttle` wrappers; the `*Time` fields are
ghost history variables recording, for `data`, the time it was fetched and, for each
stored sub-view, the fetch time of the payload it was extracted from. -/
structure FDState where
  data : Option Payload
  unit_system : Option String
  data_currently : Option SubView
  data_minutely : Option SubView
  data_hourly : Option SubView
  data_daily : Option SubView
  lastUpdate : Option Nat
  lastCurrently : Option Nat
  lastMinutely : Option Nat
  lastHourly : Option Nat
  lastDaily : Option Nat
  dataTime : Option Nat
  currentlyTime : Option Nat
  minutelyTime : Option Nat
  hourlyTime : Option Nat
  dailyTime : Option Nat
deriving DecidableEq, Repr

/-- The attribute state set by `ForeCastData.__init__` before its `self.update()`
call: every attribute `None`, no throttle timestamp recorded yet. -/
def emptyFD : FDState :=
  { data := none, unit_system := none, data_currently := none, data_minutely := none
    data_hourly := none, data_daily := none, lastUpdate := none, lastCurrently := none
    lastMinutely := none, lastHourly := none, lastDaily := none, dataTime := none
    currentlyTime := none, minutelyTime := none, hourlyTime := none, dailyTime := none }

/-- `MIN_TIME_BETWEEN_UPDATES = timedelta(seconds=120)`, in seconds. -/
def MIN_TIME_BETWEEN_UPDATES : Nat := 120

/-- Modelled from the spec: the `Throttle` decorator of `homeassistant.util` is not
among this fragment's source files.  Per the spec, each decorated operation keeps its
own last-success timestamp and `interval`; a call executes the body when no timestamp
is recorded yet or the interval has elapsed, and otherwise returns at once with no
work ("calls within the interval return the previous cached result with no new
network I/O"). -/
def fires (last : Option Nat) (now : Nat) : Bool :=
  match last with
  | none => true
  | some t => MIN_TIME_BETWEEN_UPDATES ≤ now - t

/-- The body of `ForeCastData.update` (inside the throttle): on a failed fetch, raise
`ValueError("Unable to init Forecast.io. - %s", error)` leaving every attribute as it
was; on success, store the full payload and record the service-reported
`json['flags']['units']` flag.  The returned pair is (object state after the call,
exception raised if any). -/
def updateBodyRun (fetch : Except FetchErr Payload) (st : FDState) :
    FDState × Option InitError :=
  match fetch with
  | .error e => (st, some { message := "Unable to init Forecast.io. - %s", cause := e })
  | .ok p => ({ st with data := some p, unit_system := some p.unitsFlag }, none)

/-! ## The throttled operation machine (`ForeCastData` with a reliable service)

`env t` is the payload the service returns to a fetch issued at time `t`; this
machine models the successful-fetch behaviour that the throttle claims quantify
over.  Each step returns the new state and whether the throttled body executed. -/

/-- Throttled `ForeCastData.update` at time `now`: if the throttle fires, run the
fetch body and record the last-success timestamp (and the ghost fetch time). -/
def updateStep (env : Nat → Payload) (now : Nat) (st : FDState) : FDState × Bool :=
  if fires st.lastUpdate now then
    ({ (updateBodyRun (.ok (env now)) st).1 with
        lastUpdate := some now, dataTime := some now }, true)
  else (st, false)

/-- Throttled `ForeCastData.update_currently`:
`self.data_currently = self.data.currently()`. -/
def currentlyStep (now : Nat) (st : FDState) : FDState × Bool :=
  if fires st.lastCurrently now then
    ({ st with
        data_currently := (st.data.map Payload.currently),
        lastCurrently := some now, currentlyTime := st.dataTime }, true)
  else (st, false)

/-- Throttled `ForeCastData.update_minutely`. -/
def minutelyStep (now : Nat) (st : FDState) : FDState × Bool :=
  if fires st.lastMinutely now then
    ({ st with
        data_minutely := (st.data.map Payload.minutely),
        lastMinutely := some now, minutelyTime := st.dataTime }, true)
  else (st, false)

/-- Throttled `ForeCastData.update_hourly`. -/
def hourlyStep (now : Nat) (st : FDState) : FDState × Bool :=
  if fires st.lastHourly now then
    ({ st with
        data_hourly := (st.data.map Payload.hourly),
        lastHourly := some now, hourlyTime := st.dataTime }, true)
  else (st, false)

/-- Throttled `ForeCastData.update_daily`. -/
def dailyStep (now : Nat) (st : FDState) : FDState × Bool :=
  if fires st.lastDaily now then
    ({ st with
        data_daily := (st.data.map Payload.daily),
        lastDaily := some now, dailyTime := st.dataTime }, true)
  else (st, false)

/-- The five throttled operations of `ForeCastData`. -/
inductive FOp where
  | update
  | update_currently
  | update_minutely
  | update_hourly
  | update_daily
deriving DecidableEq, Repr

/-- Dispatch one throttled operation. -/
def opStep (env : Nat → Payload) (op : FOp) (now : Nat) (st : FDState) :
    FDState × Bool :=
  match op with
  | .update => updateStep env now st
  | .update_currently => currentlyStep now st
  | .update_minutely => minutelyStep now st
  | .update_hourly => hourlyStep now st
  | .update_daily => dailyStep now st

/-- The throttle timestamp belonging to one operation. -/
def lastOf (st : FDState) : FOp → Option Nat
  | .update => st.lastUpdate
  | .update_currently => st.lastCurrently
  | .update_minutely => st.lastMinutely
  | .update_hourly => st.lastHourly
  | .update_daily => st.lastDaily

/-- Run a list of timestamped operations, returning the final state and the
execution log (operation, whether its body executed). -/
def runOps (env : Nat → Payload) : List (FOp × Nat) → FDState → FDState × List (FOp × Bool)
  | [], st => (st, [])
  | (op, t) :: rest, st =>
    let s := opStep env op t st
    let r := runOps env rest s.1
    (r.1, (op, s.2) :: r.2)

/-- How many times the body of `op` executed in a log. -/
def execCount (log : List (FOp × Bool)) (op : FOp) : Nat :=
  (log.filter (fun p => p.1 == op && p.2)).length

/-! ## `ForeCastSensor.update` as a cache transition (forecast.py) -/

/-- A sensor state value: summary sensors hold text, the others numbers. -/
inductive SVal where
  | s (v : String)
  | q (v : ℚ)
deriving DecidableEq, Repr

/-- The `summary` attribute of an optional sub-view with Python's
`getattr(view, 'summary', '')` default. -/
def summaryOf (view : Option SubView) : String :=
  match view with
  | some v => v.summary
  | none => ""

/-- The attribute map of an optional sub-view; an absent view yields the empty map,
matching `getattr(None, lookup_type, 0) = 0` per attribute. -/
def attrsOf (view : Option SubView) : List (String × ℚ) :=
  match view with
  | some v => v.attrs
  | none => []

/-- `ForeCastSensor.update`: first `self.forecast_data.update()`, then, depending on
the sensor's field key, the matching sub-view refresh, then extraction of the state
value.  Returns the new cache state and the value stored into `self._state`. -/
def sensorUpdate (env : Nat → Payload) (sensorType : String) (now : Nat)
    (st : FDState) : FDState × SVal :=
  let st1 := (updateStep env now st).1
  if sensorType = "minutely_summary" then
    let st2 := (minutelyStep now st1).1
    (st2, .s (summaryOf st2.data_minutely))
  else if sensorType = "hourly_summary" then
    let st2 := (hourlyStep now st1).1
    (st2, .s (summaryOf st2.data_hourly))
  else if sensorType = "daily_summary" then
    let st2 := (dailyStep now st1).1
    (st2, .s (summaryOf st2.data_daily))
  else
    let st2 := (currentlyStep now st1).1
    (st2, .q (get_currently_state sensorType (attrsOf st2.data_currently)))

/-- The cache state produced by `setup_platform` at time `t0`:
`ForeCastData.__init__` runs `self.update()` and setup then runs
`forecast_data.update_currently()`. -/
def initFD (env : Nat → Payload) (t0 : Nat) : FDState :=
  (currentlyStep t0 (updateStep env t0 emptyFD).1).1

/-- Run a list of timestamped sensor reads against the cache. -/
def runReads (env : Nat → Payload) : FDState → List (String × Nat) → FDState
  | st, [] => st
  | st, (ty, t) :: rest => runReads env (sensorUpdate env ty t st).1 rest

/-- Times in a read trace are at least `t0` and nondecreasing (the host invokes the
adapters single-threaded, on a wall clock). -/
def chrono : Nat → List (String × Nat) → Bool
  | _, [] => true
  | t0, (_, t) :: rest => t0 ≤ t && chrono t rest

/-! ## The Z-Wave garage door (zwave.py) -/

/-- One value exposed by a Z-Wave node: command-class tag, value index, boolean
payload (the data of a binary-switch value). -/
structure ZValue where
  command_class : Nat
  index : Nat
  data : Bool
deriving DecidableEq, Repr

/-- A Z-Wave node as the garage door entity sees it: its collection of values, in
iteration order. -/
structure ZNode where
  values : List ZValue
deriving DecidableEq, Repr

/-- `node.get_values(class_id=...)`: the node's values filtered to one command class
(the spec: "scans the bound node's values filtered to the binary-switch class"). -/
def ZNode.get_values (n : ZNode) (class_id : Nat) : List ZValue :=
  n.values.filter (fun v => v.command_class == class_id)

/-- `COMMAND_CLASS_SWITCH_BINARY = 0x25  # 37`. -/
def COMMAND_CLASS_SWITCH_BINARY : Nat := 0x25

/-- `ZwaveGarageDoor.is_closed`: loop over
`self._node.get_values(class_id=COMMAND_CLASS_SWITCH_BINARY).values()` and return
`value.data` for the first value with `value.command_class == 37 and
value.index == 0`; falling off the loop returns `None`. -/
def is_closed (n : ZNode) : Option Bool :=
  ((n.get_values COMMAND_CLASS_SWITCH_BINARY).find?
      (fun v => v.command_class == 37 && v.index == 0)).map ZValue.data

/-- A value object as the dispatcher hands it to the signal handler: the node it
lives on (by id) and its value id. -/
structure ZObjValue where
  node : Nat
  value_id : Nat
deriving DecidableEq, Repr

/-- `ZwaveGarageDoor.value_changed`: `if self._value.node == value.node:
self.update_ha_state(True)`.  The result is `true` exactly when the handler requests
the host state refresh. -/
def value_changed (bound event : ZObjValue) : Bool :=
  bound.node == event.node

/-! ## `setup_platform` of the weather platform (forecast.py) -/

/-- The observable outcome of `setup_platform`: the value returned to the host
(`some false` for an explicit `return False`, `none` for falling off the end, which
returns Python `None`), whether `add_devices` was called, and the field keys of the
sensors handed to it. -/
structure SetupOutcome where
  returnValue : Option Bool
  addDevicesCalled : Bool
  sensors : List String
deriving DecidableEq, Repr

/-- The `units` selection in `setup_platform`: an explicit `units` config entry wins,
otherwise `si` when the host temperature unit is Celsius, else `us`. -/
def pickUnits (configUnits : Option String) (tempUnitCelsius : Bool) : String :=
  match configUnits with
  | some u => u
  | none => if tempUnitCelsius then "si" else "us"

/-- `setup_platform` of forecast.py.  `latitude` / `longitude` come from the host
config; `hasApiKey` is the `validate_config` check of the required `CONF_API_KEY`
(modelled from the spec: "a required credential is missing from configuration" makes
validation fail); `initFetch` is the outcome of the initial `ForeCastData(...)` fetch,
whose failure is raised as a `ValueError` and caught; `monitored` is
`config['monitored_conditions']`. -/
def setup_platform (latitude longitude : Option ℚ) (hasApiKey : Bool)
    (initFetch : Except FetchErr Payload) (monitored : List String) : SetupOutcome :=
  if latitude = none ∨ longitude = none then
    { returnValue := some false, addDevicesCalled := false, sensors := [] }
  else if !hasApiKey then
    { returnValue := some false, addDevicesCalled := false, sensors := [] }
  else
    match initFetch with
    | .error _ => { returnValue := some false, addDevicesCalled := false, sensors := [] }
    | .ok _ =>
      { returnValue := none, addDevicesCalled := true,
        sensors := monitored.filter (fun v => (SENSOR_TYPES.lookup v).isSome) }

/-! ## Specification vocabulary: staleness tracking and concrete environments -/

/-- Joining components with single underscores: the inverse of `splitU` used to state
the camel-case claim over arbitrary component lists. -/
def joinU : List (List Char) → List Char
  | [] => []
  | [a] => a
  | a :: b :: rest => a ++ '_' :: joinU (b :: rest)

/-- Staleness bookkeeping for one throttled sub-view extraction: whenever its
throttle timestamp `last` is recorded, it is no later than `tmax`, and the stored view
was extracted from the payload fetched at some `tf` at most one refresh interval
before the extraction. -/
def SubTracked (env : Nat → Payload) (proj : Payload → SubView) (tmax : Nat)
    (last fetchT : Option Nat) (view : Option SubView) : Prop :=
  ∀ lc, last = some lc →
    lc ≤ tmax ∧ ∃ tf, fetchT = some tf ∧ tf ≤ lc
      ∧ lc - tf < MIN_TIME_BETWEEN_UPDATES ∧ view = some (proj (env tf))

/-- Invariant of the cache under sensor-driven reads, at wall-clock bound `tmax`:
a payload is cached, fetched no later than `tmax`, holding the service's data and
unit flag for its fetch time; and each sub-view satisfies `SubTracked`. -/
def CacheInv (env : Nat → Payload) (tmax : Nat) (st : FDState) : Prop :=
  (∃ tf, st.lastUpdate = some tf ∧ st.dataTime = some tf ∧ tf ≤ tmax
      ∧ st.data = some (env tf) ∧ st.unit_system = some (env tf).unitsFlag)
  ∧ SubTracked env Payload.currently tmax st.lastCurrently st.currentlyTime
      st.data_currently
  ∧ SubTracked env Payload.minutely tmax st.lastMinutely st.minutelyTime
      st.data_minutely
  ∧ SubTracked env Payload.hourly tmax st.lastHourly st.hourlyTime st.data_hourly
  ∧ SubTracked env Payload.daily tmax st.lastDaily st.dailyTime st.data_daily

/-- The time at the end of a read trace (the last read's timestamp, or the start
time for an empty trace). -/
def endTime : Nat → List (String × Nat) → Nat
  | t0, [] => t0
  | _, (_, t) :: rest => endTime t rest

/-- A service environment whose payload at time `t` is tagged with `t`, so payloads
fetched at different times are distinguishable. -/
def envT (t : Nat) : Payload :=
  { unitsFlag := "si",
    currently := { summary := "currently at " ++ Nat.repr t, attrs := [] },
    minutely := { summary := "minutely at " ++ Nat.repr t, attrs := [] },
    hourly := { summary := "hourly at " ++ Nat.repr t, attrs := [] },
    daily := { summary := "daily at " ++ Nat.repr t, attrs := [] } }

/-! ## Splitting lemmas for `convert_to_camel` -/

theorem splitU_ne_nil (cs : List Char) : splitU cs ≠ [] := by
  induction cs with
  | nil => simp [splitU]
  | cons c rest ih =>
    by_cases hc : c = '_'
    · simp [splitU, hc]
    · simp only [splitU, if_neg hc]
      cases h : splitU rest <;> simp

theorem splitU_append (a cs : List Char) (ha : '_' ∉ a) :
    splitU (a ++ cs) = (a ++ (splitU cs).headI) :: (splitU cs).tail := by
  induction a with
  | nil =>
    simp only [List.nil_append]
    cases h : splitU cs with
    | nil => exact absurd h (splitU_ne_nil cs)
    | cons w ws => simp
  | cons c a ih =>
    have hc : c ≠ '_' := fun h => ha (by simp [h])
    have ha2 : '_' ∉ a := fun h => ha (List.mem_cons_of_mem _ h)
    simp only [List.cons_append, splitU, if_neg hc]
    rw [show a.append cs = a ++ cs from rfl, ih ha2]

theorem splitU_no_underscore (a : List Char) (ha : '_' ∉ a) : splitU a = [a] := by
  have h := splitU_append a [] ha
  simpa [splitU] using h

theorem splitU_joinU (parts : List (List Char)) (hne : parts ≠ [])
    (hall : ∀ p ∈ parts, '_' ∉ p) : splitU (joinU parts) = parts := by
  induction parts with
  | nil => exact absurd rfl hne
  | cons a rest ih =>
    cases rest with
    | nil => exact splitU_no_underscore a (hall a (by simp))
    | cons b rest2 =>
      have ha : '_' ∉ a := hall a (by simp)
      have hstep : joinU (a :: b :: rest2) = a ++ '_' :: joinU (b :: rest2) := rfl
      rw [hstep, splitU_append a _ ha]
      have h2 : splitU ('_' :: joinU (b :: rest2)) = [] :: splitU (joinU (b :: rest2)) := by
        simp [splitU]
      rw [h2]
      have ih2 := ih (by simp) (fun p hp => hall p (List.mem_cons_of_mem _ hp))
      simp [ih2]

/-- C5: `convert_to_camel` keeps the first underscore-separated component unchanged
and concatenates the title-cased remaining components; in particular
`nearest_storm_distance` maps to `nearestStormDistance`, `wind_speed` to `windSpeed`,
and single-word keys map to themselves. -/
theorem convert_to_camel_spec (parts : List (List Char)) (hne : parts ≠ [])
    (hall : ∀ p ∈ parts, '_' ∉ p) :
    convert_to_camel (String.mk (joinU parts))
      = String.mk (parts.headI ++ ((parts.tail.map (titleChars false)).flatten))
    ∧ (∀ a : List Char, '_' ∉ a → convert_to_camel (String.mk a) = String.mk a)
    ∧ convert_to_camel "nearest_storm_distance" = "nearestStormDistance"
    ∧ convert_to_camel "wind_speed" = "windSpeed"
    ∧ convert_to_camel "summary" = "summary"
    ∧ convert_to_camel "icon" = "icon" := by
  refine ⟨?_, ?_, by decide, by decide, by decide, by decide⟩
  · have hd : (String.mk (joinU parts)).data = joinU parts := rfl
    simp only [convert_to_camel, hd, splitU_joinU parts hne hall]
    cases parts with
    | nil => exact absurd rfl hne
    | cons a rest => simp
  · intro a ha
    simp [convert_to_camel, splitU_no_underscore a ha]

theorem convert_to_camel_spec_witness :
    convert_to_camel (String.mk (joinU [['w', 'i', 'n', 'd'], ['s', 'p', 'e', 'e', 'd']]))
      = String.mk ([['w', 'i', 'n', 'd'], ['s', 'p', 'e', 'e', 'd']].headI
          ++ (([['w', 'i', 'n', 'd'], ['s', 'p', 'e', 'e', 'd']].tail.map
                (titleChars false)).flatten))
    ∧ (∀ a : List Char, '_' ∉ a → convert_to_camel (String.mk a) = String.mk a)
    ∧ convert_to_camel "nearest_storm_distance" = "nearestStormDistance"
    ∧ convert_to_camel "wind_speed" = "windSpeed"
    ∧ convert_to_camel "summary" = "summary"
    ∧ convert_to_camel "icon" = "icon" :=
  convert_to_camel_spec [['w', 'i', 'n', 'd'], ['s', 'p', 'e', 'e', 'd']]
    (by decide) (by decide)

/-- C4: for every field key present in `SENSOR_TYPES`, `update_unit_of_measurement`
selects the row column at index 1 for `si`, 2 for `us`, 3 for `ca`, 4 for `uk`, 5 for
`uk2`, and the `si` column (index 1) for any unrecognized unit-system value. -/
theorem update_unit_of_measurement_spec (ty : String) (row : List (Option String))
    (hrow : SENSOR_TYPES.lookup ty = some row) (us : String) :
    update_unit_of_measurement ty us
      = row.getD (if us = "si" then 1 else if us = "us" then 2 else if us = "ca" then 3
                  else if us = "uk" then 4 else if us = "uk2" then 5 else 1) none
    ∧ (us ∉ ["si", "us", "ca", "uk", "uk2"] →
        update_unit_of_measurement ty us = row.getD 1 none) := by
  constructor
  · simp only [update_unit_of_measurement, hrow, unitIndex]
  · intro h
    simp only [List.mem_cons, List.not_mem_nil, or_false] at h
    push_neg at h
    obtain ⟨h1, h2, h3, h4, h5⟩ := h
    simp only [update_unit_of_measurement, hrow, unitIndex, if_neg h1, if_neg h2,
      if_neg h3, if_neg h4, if_neg h5]

theorem update_unit_of_measurement_spec_witness :
    SENSOR_TYPES.lookup "temperature"
      = some [some "Temperature", some "Â°C", some "Â°F", some "Â°C", some "Â°C",
              some "Â°C"]
    ∧ ("kelvin" : String) ∉ ["si", "us", "ca", "uk", "uk2"]
    ∧ update_unit_of_measurement "temperature" "kelvin" = some "Â°C" :=
  ⟨by decide, by decide,
    (update_unit_of_measurement_spec "temperature"
      [some "Temperature", some "Â°C", some "Â°F", some "Â°C", some "Â°C", some "Â°C"]
      (by decide) "kelvin").2 (by decide)⟩

/-! ## Rounding facts for the numeric sensor fields -/

theorem roundHalfEven_abs_le (q : ℚ) : |(roundHalfEven q : ℚ) - q| ≤ 1 / 2 := by
  have h0 : (0 : ℚ) ≤ q - ⌊q⌋ := by
    have := Int.floor_le q
    linarith
  have h1 : q - ⌊q⌋ < 1 := by
    have := Int.lt_floor_add_one q
    linarith
  simp only [roundHalfEven]
  split_ifs with ha hb hcq
  · rw [abs_sub_comm, abs_of_nonneg h0]
    linarith
  · push_cast
    rw [abs_of_nonneg (by linarith)]
    linarith
  · rw [abs_sub_comm, abs_of_nonneg h0]
    linarith
  · push_cast
    rw [abs_of_nonneg (by push_neg at ha; linarith)]
    push_neg at ha
    linarith

theorem round1_abs_le (x : ℚ) :
    (∃ k : ℤ, round1 x = (k : ℚ) / 10) ∧ |round1 x - x| ≤ 1 / 20 := by
  constructor
  · exact ⟨roundHalfEven (10 * x), rfl⟩
  · have h := roundHalfEven_abs_le (10 * x)
    have : round1 x - x = ((roundHalfEven (10 * x) : ℚ) - 10 * x) / 10 := by
      simp only [round1]
      ring
    rw [this, abs_div]
    rw [abs_of_pos (by norm_num : (0:ℚ) < 10)]
    linarith [abs_nonneg ((roundHalfEven (10 * x) : ℚ) - 10 * x)]

/-- C3: `get_currently_state` multiplies by 100 and rounds to one decimal for
`precip_probability` / `cloud_cover` / `humidity`, rounds to one decimal without
rescaling for `dew_point` / `temperature` / `apparent_temperature` / `pressure` /
`ozone`, and returns the raw value unchanged for every other field key; the rounded
result is an integer number of tenths within 1/20 of its argument, and on the spec's
examples a raw humidity of 0.567 yields 56.7 and a raw temperature of 21.449 yields
21.4. -/
theorem get_currently_state_spec (ty : String) (attrs : List (String × ℚ)) :
    (ty ∈ ["precip_probability", "cloud_cover", "humidity"] →
      get_currently_state ty attrs
        = round1 (((attrs.lookup (convert_to_camel ty)).getD 0) * 100))
    ∧ (ty ∈ ["dew_point", "temperature", "apparent_temperature", "pressure",
             "ozone"] →
        get_currently_state ty attrs
          = round1 ((attrs.lookup (convert_to_camel ty)).getD 0))
    ∧ (ty ∉ ["precip_probability", "cloud_cover", "humidity", "dew_point",
             "temperature", "apparent_temperature", "pressure", "ozone"] →
        get_currently_state ty attrs = (attrs.lookup (convert_to_camel ty)).getD 0)
    ∧ (∀ x : ℚ, (∃ k : ℤ, round1 x = (k : ℚ) / 10) ∧ |round1 x - x| ≤ 1 / 20)
    ∧ get_currently_state "humidity" [("humidity", 567 / 1000)] = 567 / 10
    ∧ get_currently_state "temperature" [("temperature", 21449 / 1000)] = 214 / 10 := by
  refine ⟨?_, ?_, ?_, round1_abs_le, ?_, ?_⟩
  · intro h
    simp only [get_currently_state, if_pos h]
  · intro h
    have hnp : ty ∉ ["precip_probability", "cloud_cover", "humidity"] := by
      intro hmem
      simp only [List.mem_cons, List.not_mem_nil, or_false] at h hmem
      rcases h with rfl | rfl | rfl | rfl | rfl <;> simp_all
    simp only [get_currently_state, if_neg hnp, if_pos h]
  · intro h
    have hnp : ty ∉ ["precip_probability", "cloud_cover", "humidity"] := by
      intro hmem
      exact h (by simp only [List.mem_cons, List.not_mem_nil, or_false] at hmem ⊢; tauto)
    have hnr : ty ∉ ["dew_point", "temperature", "apparent_temperature", "pressure",
                     "ozone"] := by
      intro hmem
      exact h (by simp only [List.mem_cons, List.not_mem_nil, or_false] at hmem ⊢; tauto)
    simp only [get_currently_state, if_neg hnp, if_neg hnr]
  · have hc : convert_to_camel "humidity" = "humidity" := by decide
    simp only [get_currently_state, if_pos (by decide :
      ("humidity" : String) ∈ ["precip_probability", "cloud_cover", "humidity"]), hc]
    simp only [List.lookup, beq_self_eq_true, Option.getD_some]
    norm_num [round1, roundHalfEven]
  · have hc : convert_to_camel "temperature" = "temperature" := by decide
    simp only [get_currently_state,
      if_neg (by decide : ¬ ("temperature" : String) ∈
        ["precip_probability", "cloud_cover", "humidity"]),
      if_pos (by decide : ("temperature" : String) ∈
        ["dew_point", "temperature", "apparent_temperature", "pressure", "ozone"]), hc]
    simp only [List.lookup, beq_self_eq_true, Option.getD_some]
    norm_num [round1, roundHalfEven]

theorem get_currently_state_spec_witness :
    ("humidity" : String) ∈ ["precip_probability", "cloud_cover", "humidity"]
    ∧ get_currently_state "humidity" [("humidity", 567 / 1000)]
        = round1 ((([("humidity", (567 : ℚ) / 1000)].lookup
            (convert_to_camel "humidity")).getD 0) * 100) :=
  ⟨by decide, (get_currently_state_spec "humidity" [("humidity", 567 / 1000)]).1
    (by decide)⟩

/-! ## Garage door claims -/

theorem is_closed_find (l : List ZValue) (v : ZValue)
    (hc : v.command_class = 37) (hi : v.index = 0) :
    v ∈ l → (∀ w ∈ l, w.command_class = 37 → w.index = 0 → w = v) →
    ((l.filter (fun x => x.command_class == 0x25)).find?
        (fun x => x.command_class == 37 && x.index == 0)) = some v := by
  induction l with
  | nil => intro hv hu; cases hv
  | cons a t ih =>
    intro hv huniq
    by_cases hav : a = v
    · subst hav
      rw [List.filter_cons_of_pos (by simp [hc]),
          List.find?_cons_of_pos _ (by simp [hc, hi])]
    · have hvt : v ∈ t := by
        rcases List.mem_cons.1 hv with rfl | h
        · exact absurd rfl hav
        · exact h
      have ht := ih hvt (fun w hw => huniq w (List.mem_cons_of_mem _ hw))
      by_cases hfa : a.command_class = 37
      · have hidx : a.index ≠ 0 := fun h0 =>
          hav (huniq a (List.mem_cons_self a t) hfa h0)
      
        rw [List.filter_cons_of_pos (by simp [hfa]),
            List.find?_cons_of_neg _ (by simp [hidx])]
        exact ht
      · rw [List.filter_cons_of_neg (by simp [hfa])]
        exact ht

/-- C6: `is_closed` returns the boolean payload of the node's binary-switch
(command class `0x25`) value at index 0, and is absent when the node has no such
value. -/
theorem is_closed_spec (n : ZNode) (v : ZValue)
    (hv : v ∈ n.values) (hc : v.command_class = 37) (hi : v.index = 0)
    (huniq : ∀ w ∈ n.values, w.command_class = 37 → w.index = 0 → w = v) :
    is_closed n = some v.data
    ∧ (∀ m : ZNode, (∀ w ∈ m.values, ¬(w.command_class = 37 ∧ w.index = 0)) →
        is_closed m = none) := by
  constructor
  · simp only [is_closed, ZNode.get_values, COMMAND_CLASS_SWITCH_BINARY]
    rw [is_closed_find n.values v hc hi hv huniq]
    rfl
  · intro m hm
    simp only [is_closed, ZNode.get_values, COMMAND_CLASS_SWITCH_BINARY,
      Option.map_eq_none', List.find?_eq_none, List.mem_filter]
    intro w hw
    simp only [Bool.and_eq_true, beq_iff_eq]
    intro hand
    exact hm w hw.1 ⟨hand.1, hand.2⟩

theorem is_closed_spec_witness :
    is_closed
      { values := [{ command_class := 38, index := 0, data := false },
                   { command_class := 37, index := 1, data := false },
                   { command_class := 37, index := 0, data := true }] }
      = some true :=
  (is_closed_spec
    { values := [{ command_class := 38, index := 0, data := false },
                 { command_class := 37, index := 1, data := false },
                 { command_class := 37, index := 0, data := true }] }
    { command_class := 37, index := 0, data := true }
    (by decide) (by decide) (by decide) (by decide)).1

/-- C7: the `value_changed` handler requests a host state refresh exactly when the
event value's node equals the bound value's node; a differing node causes no refresh,
and any value id on the bound node triggers one. -/
theorem value_changed_spec (bound event : ZObjValue) (vid : Nat) :
    (value_changed bound event = true ↔ bound.node = event.node)
    ∧ (bound.node ≠ event.node → value_changed bound event = false)
    ∧ value_changed bound { node := bound.node, value_id := vid } = true := by
  refine ⟨by simp [value_changed], ?_, by simp [value_changed]⟩
  intro h
  simp [value_changed, h]

theorem value_changed_spec_witness :
    value_changed { node := 4, value_id := 7 } { node := 5, value_id := 7 } = false :=
  (value_changed_spec { node := 4, value_id := 7 } { node := 5, value_id := 7 } 0).2.1
    (by decide)

/-- C8: `setup_platform` returns a false-equivalent value and never calls
`add_devices` when latitude or longitude is unset, when the required API credential
is missing, or when the initial fetch raises a value error; in each case no sensor is
created. -/
theorem setup_platform_spec (lat lon : Option ℚ) (key : Bool)
    (fetch : Except FetchErr Payload) (monitored : List String) :
    ((lat = none ∨ lon = none) →
      setup_platform lat lon key fetch monitored
        = { returnValue := some false, addDevicesCalled := false, sensors := [] })
    ∧ (key = false →
      setup_platform lat lon key fetch monitored
        = { returnValue := some false, addDevicesCalled := false, sensors := [] })
    ∧ (∀ e, fetch = .error e →
      setup_platform lat lon key fetch monitored
        = { returnValue := some false, addDevicesCalled := false, sensors := [] }) := by
  refine ⟨?_, ?_, ?_⟩
  · intro h
    simp [setup_platform, h]
  · intro h
    subst h
    by_cases hl : lat = none ∨ lon = none
    · simp [setup_platform, hl]
    · simp [setup_platform, hl]
  · intro e h
    subst h
    by_cases hl : lat = none ∨ lon = none
    · simp [setup_platform, hl]
    · cases key with
      | false => simp [setup_platform, hl]
      | true => simp [setup_platform, hl]

theorem setup_platform_spec_witness :
    setup_platform none (some 0) true (.ok (envT 0)) ["temperature"]
      = { returnValue := some false, addDevicesCalled := false, sensors := [] } :=
  (setup_platform_spec none (some 0) true (.ok (envT 0)) ["temperature"]).1
    (Or.inl rfl)

/-- C9: the fetch body of `ForeCastData.update` raises a value error carrying the
underlying cause exactly when the outbound fetch fails (connection error, HTTP error,
timeout or invalid response); on success it stores the full payload and records the
unit-system flag reported by the service, which need not match the requested unit
system. -/
theorem updateBodyRun_spec (fetch : Except FetchErr Payload) (st : FDState) :
    ((updateBodyRun fetch st).2.isSome ↔ ∃ e, fetch = .error e)
    ∧ (∀ e, fetch = .error e →
        (updateBodyRun fetch st).2
          = some { message := "Unable to init Forecast.io. - %s", cause := e })
    ∧ (∀ p, fetch = .ok p →
        (updateBodyRun fetch st).2 = none
        ∧ (updateBodyRun fetch st).1.data = some p
        ∧ (updateBodyRun fetch st).1.unit_system = some p.unitsFlag) := by
  refine ⟨?_, ?_, ?_⟩
  · cases fetch with
    | error e => simp [updateBodyRun]
    | ok p => simp [updateBodyRun]
  · intro e h
    subst h
    simp [updateBodyRun]
  · intro p h
    subst h
    simp [updateBodyRun]

theorem updateBodyRun_spec_witness :
    (updateBodyRun (.error (.timeout "read timed out")) emptyFD).2
      = some { message := "Unable to init Forecast.io. - %s",
               cause := .timeout "read timed out" } :=
  (updateBodyRun_spec (.error (.timeout "read timed out")) emptyFD).2.1
    (.timeout "read timed out") rfl

/-- C10: when the fetch body of `ForeCastData.update` fails and the value error
propagates, the cache object is unchanged: `data` and `unit_system` (and every other
attribute) keep the values they held before the call. -/
theorem updateBodyRun_failure_preserves_state (fetch : Except FetchErr Payload)
    (st : FDState) (e : FetchErr) (h : fetch = .error e) :
    (updateBodyRun fetch st).1 = st
    ∧ (updateBodyRun fetch st).1.data = st.data
    ∧ (updateBodyRun fetch st).1.unit_system = st.unit_system := by
  subst h
  exact ⟨rfl, rfl, rfl⟩

theorem updateBodyRun_failure_preserves_state_witness :
    (updateBodyRun (.error (.httpError "502 Bad Gateway"))
        (initFD envT 0)).1 = initFD envT 0 :=
  (updateBodyRun_failure_preserves_state (.error (.httpError "502 Bad Gateway"))
    (initFD envT 0) (.httpError "502 Bad Gateway") rfl).1

/-- C1: the 120-second throttle is tracked per operation, not globally.  Two
`update()` calls within the interval execute the fetch body exactly once (the second
returns without executing); an `update_daily()` immediately after an `update()`
still executes its own body; and no operation's step ever changes another
operation's throttle timestamp. -/
theorem throttle_per_operation (env : Nat → Payload) (t1 t2 : Nat) (st : FDState)
    (now : Nat) (op op2 : FOp) (h1 : t1 ≤ t2)
    (h2 : t2 - t1 < MIN_TIME_BETWEEN_UPDATES) (hne : op ≠ op2) :
    execCount (runOps env [(.update, t1), (.update, t2)] emptyFD).2 .update = 1
    ∧ (opStep env .update t2 (opStep env .update t1 emptyFD).1).2 = false
    ∧ execCount (runOps env [(.update, t1), (.update_daily, t2)] emptyFD).2
        .update_daily = 1
    ∧ lastOf (opStep env op now st).1 op2 = lastOf st op2 := by
  have hlt : ¬ (MIN_TIME_BETWEEN_UPDATES ≤ t2 - t1) := Nat.not_le.2 h2
  refine ⟨?_, ?_, ?_, ?_⟩
  · simp [runOps, opStep, updateStep, fires, emptyFD, updateBodyRun, execCount, hlt]
  · simp [opStep, updateStep, fires, emptyFD, updateBodyRun, hlt]
  · simp [runOps, opStep, updateStep, dailyStep, fires, emptyFD, updateBodyRun,
      execCount, hlt]
  · cases op <;> cases op2 <;>
      first
        | exact absurd rfl hne
        | (simp only [opStep, updateStep, currentlyStep, minutelyStep, hourlyStep,
            dailyStep, lastOf]
           split <;> rfl)

theorem throttle_per_operation_witness :
    execCount (runOps envT [(.update, 1000), (.update, 1100)] emptyFD).2 .update = 1
    ∧ (opStep envT .update 1100 (opStep envT .update 1000 emptyFD).1).2 = false
    ∧ execCount (runOps envT [(.update, 1000), (.update_daily, 1100)] emptyFD).2
        .update_daily = 1
    ∧ lastOf (opStep envT .update 1100 (initFD envT 0)).1 .update_daily
        = lastOf (initFD envT 0) .update_daily :=
  throttle_per_operation envT 1000 1100 (initFD envT 0) 1100 .update .update_daily
    (by decide) (by decide) (by decide)

/-! ## Staleness invariant lemmas for the sensor-driven cache -/

theorem subTracked_mono (env : Nat → Payload) (proj : Payload → SubView)
    {t1 t2 : Nat} {last fetchT : Option Nat} {view : Option SubView}
    (h : SubTracked env proj t1 last fetchT view) (hle : t1 ≤ t2) :
    SubTracked env proj t2 last fetchT view := by
  intro lc hlc
  obtain ⟨ha, hb⟩ := h lc hlc
  exact ⟨le_trans ha hle, hb⟩

theorem updateStep_post (env : Nat → Payload) (tmax now : Nat) (st : FDState)
    (h : CacheInv env tmax st) (hle : tmax ≤ now) :
    (∃ tf, (updateStep env now st).1.lastUpdate = some tf
        ∧ (updateStep env now st).1.dataTime = some tf ∧ tf ≤ now
        ∧ now - tf < MIN_TIME_BETWEEN_UPDATES
        ∧ (updateStep env now st).1.data = some (env tf)
        ∧ (updateStep env now st).1.unit_system = some (env tf).unitsFlag)
    ∧ (updateStep env now st).1.lastCurrently = st.lastCurrently
    ∧ (updateStep env now st).1.currentlyTime = st.currentlyTime
    ∧ (updateStep env now st).1.data_currently = st.data_currently
    ∧ (updateStep env now st).1.lastMinutely = st.lastMinutely
    ∧ (updateStep env now st).1.minutelyTime = st.minutelyTime
    ∧ (updateStep env now st).1.data_minutely = st.data_minutely
    ∧ (updateStep env now st).1.lastHourly = st.lastHourly
    ∧ (updateStep env now st).1.hourlyTime = st.hourlyTime
    ∧ (updateStep env now st).1.data_hourly = st.data_hourly
    ∧ (updateStep env now st).1.lastDaily = st.lastDaily
    ∧ (updateStep env now st).1.dailyTime = st.dailyTime
    ∧ (updateStep env now st).1.data_daily = st.data_daily := by
  by_cases hf : fires st.lastUpdate now = true
  · unfold updateStep updateBodyRun
    rw [if_pos hf]
    exact ⟨⟨now, rfl, rfl, le_refl _,
        by unfold MIN_TIME_BETWEEN_UPDATES; omega, rfl, rfl⟩,
      rfl, rfl, rfl, rfl, rfl, rfl, rfl, rfl, rfl, rfl, rfl, rfl⟩
  · unfold updateStep
    rw [if_neg hf]
    refine ⟨?_, rfl, rfl, rfl, rfl, rfl, rfl, rfl, rfl, rfl, rfl, rfl, rfl⟩
    obtain ⟨tf, hl, hdt, htm, hdata, hus⟩ := h.1
    have hthr : ¬ (MIN_TIME_BETWEEN_UPDATES ≤ now - tf) := by
      intro hle2
      apply hf
      rw [hl]
      simp [fires, hle2]
    exact ⟨tf, hl, hdt, le_trans htm hle, by omega, hdata, hus⟩


theorem currentlyStep_post (env : Nat → Payload) (tmax now : Nat) (st1 : FDState)
    (tf1 : Nat) (hdt : st1.dataTime = some tf1) (htf : tf1 ≤ now)
    (hfr : now - tf1 < MIN_TIME_BETWEEN_UPDATES) (hdata : st1.data = some (env tf1))
    (hS : SubTracked env Payload.currently tmax st1.lastCurrently st1.currentlyTime
      st1.data_currently)
    (hle : tmax ≤ now) :
    SubTracked env Payload.currently now (currentlyStep now st1).1.lastCurrently
      (currentlyStep now st1).1.currentlyTime (currentlyStep now st1).1.data_currently
    ∧ (∃ tc, (currentlyStep now st1).1.currentlyTime = some tc ∧ tc ≤ now
        ∧ now - tc < 2 * MIN_TIME_BETWEEN_UPDATES
        ∧ (currentlyStep now st1).1.data_currently = some ((env tc).currently))
    ∧ (currentlyStep now st1).1.lastUpdate = st1.lastUpdate
    ∧ (currentlyStep now st1).1.dataTime = st1.dataTime
    ∧ (currentlyStep now st1).1.data = st1.data
    ∧ (currentlyStep now st1).1.unit_system = st1.unit_system
    ∧ (currentlyStep now st1).1.lastMinutely = st1.lastMinutely
    ∧ (currentlyStep now st1).1.minutelyTime = st1.minutelyTime
    ∧ (currentlyStep now st1).1.data_minutely = st1.data_minutely
    ∧ (currentlyStep now st1).1.lastHourly = st1.lastHourly
    ∧ (currentlyStep now st1).1.hourlyTime = st1.hourlyTime
    ∧ (currentlyStep now st1).1.data_hourly = st1.data_hourly
    ∧ (currentlyStep now st1).1.lastDaily = st1.lastDaily
    ∧ (currentlyStep now st1).1.dailyTime = st1.dailyTime
    ∧ (currentlyStep now st1).1.data_daily = st1.data_daily := by
  by_cases hf : fires st1.lastCurrently now = true
  · unfold currentlyStep
    rw [if_pos hf]
    refine ⟨?_, ⟨tf1, hdt, htf, by omega, by rw [hdata]; rfl⟩, rfl, rfl, rfl, rfl,
      rfl, rfl, rfl, rfl, rfl, rfl, rfl, rfl, rfl⟩
    intro lc hlc
    obtain rfl : now = lc := by injection hlc
    exact ⟨le_refl _, tf1, hdt, htf, hfr, by rw [hdata]; rfl⟩
  · unfold currentlyStep
    rw [if_neg hf]
    refine ⟨subTracked_mono env Payload.currently hS hle, ?_, rfl, rfl, rfl, rfl,
      rfl, rfl, rfl, rfl, rfl, rfl, rfl, rfl, rfl⟩
    cases hlast : st1.lastCurrently with
    | none => rw [hlast] at hf; simp [fires] at hf
    | some lc0 =>
      have hthr : ¬ (MIN_TIME_BETWEEN_UPDATES ≤ now - lc0) := by
        intro hle2
        apply hf
        rw [hlast]
        simp [fires, hle2]
      obtain ⟨hlc0, tf, hft, htfl, hwin, hview⟩ := hS lc0 hlast
      exact ⟨tf, hft, by omega, by omega, hview⟩


theorem minutelyStep_post (env : Nat → Payload) (tmax now : Nat) (st1 : FDState)
    (tf1 : Nat) (hdt : st1.dataTime = some tf1) (htf : tf1 ≤ now)
    (hfr : now - tf1 < MIN_TIME_BETWEEN_UPDATES) (hdata : st1.data = some (env tf1))
    (hS : SubTracked env Payload.minutely tmax st1.lastMinutely st1.minutelyTime
      st1.data_minutely)
    (hle : tmax ≤ now) :
    SubTracked env Payload.minutely now (minutelyStep now st1).1.lastMinutely
      (minutelyStep now st1).1.minutelyTime (minutelyStep now st1).1.data_minutely
    ∧ (∃ tc, (minutelyStep now st1).1.minutelyTime = some tc ∧ tc ≤ now
        ∧ now - tc < 2 * MIN_TIME_BETWEEN_UPDATES
        ∧ (minutelyStep now st1).1.data_minutely = some ((env tc).minutely))
    ∧ (minutelyStep now st1).1.lastUpdate = st1.lastUpdate
    ∧ (minutelyStep now st1).1.dataTime = st1.dataTime
    ∧ (minutelyStep now st1).1.data = st1.data
    ∧ (minutelyStep now st1).1.unit_system = st1.unit_system
    ∧ (minutelyStep now st1).1.lastCurrently = st1.lastCurrently
    ∧ (minutelyStep now st1).1.currentlyTime = st1.currentlyTime
    ∧ (minutelyStep now st1).1.data_currently = st1.data_currently
    ∧ (minutelyStep now st1).1.lastHourly = st1.lastHourly
    ∧ (minutelyStep now st1).1.hourlyTime = st1.hourlyTime
    ∧ (minutelyStep now st1).1.data_hourly = st1.data_hourly
    ∧ (minutelyStep now st1).1.lastDaily = st1.lastDaily
    ∧ (minutelyStep now st1).1.dailyTime = st1.dailyTime
    ∧ (minutelyStep now st1).1.data_daily = st1.data_daily := by
  by_cases hf : fires st1.lastMinutely now = true
  · unfold minutelyStep
    rw [if_pos hf]
    refine ⟨?_, ⟨tf1, hdt, htf, by omega, by rw [hdata]; rfl⟩, rfl, rfl, rfl, rfl,
      rfl, rfl, rfl, rfl, rfl, rfl, rfl, rfl, rfl⟩
    intro lc hlc
    obtain rfl : now = lc := by injection hlc
    exact ⟨le_refl _, tf1, hdt, htf, hfr, by rw [hdata]; rfl⟩
  · unfold minutelyStep
    rw [if_neg hf]
    refine ⟨subTracked_mono env Payload.minutely hS hle, ?_, rfl, rfl, rfl, rfl,
      rfl, rfl, rfl, rfl, rfl, rfl, rfl, rfl, rfl⟩
    cases hlast : st1.lastMinutely with
    | none => rw [hlast] at hf; simp [fires] at hf
    | some lc0 =>
      have hthr : ¬ (MIN_TIME_BETWEEN_UPDATES ≤ now - lc0) := by
        intro hle2
        apply hf
        rw [hlast]
        simp [fires, hle2]
      obtain ⟨hlc0, tf, hft, htfl, hwin, hview⟩ := hS lc0 hlast
      exact ⟨tf, hft, by omega, by omega, hview⟩


theorem hourlyStep_post (env : Nat → Payload) (tmax now : Nat) (st1 : FDState)
    (tf1 : Nat) (hdt : st1.dataTime = some tf1) (htf : tf1 ≤ now)
    (hfr : now - tf1 < MIN_TIME_BETWEEN_UPDATES) (hdata : st1.data = some (env tf1))
    (hS : SubTracked env Payload.hourly tmax st1.lastHourly st1.hourlyTime
      st1.data_hourly)
    (hle : tmax ≤ now) :
    SubTracked env Payload.hourly now (hourlyStep now st1).1.lastHourly
      (hourlyStep now st1).1.hourlyTime (hourlyStep now st1).1.data_hourly
    ∧ (∃ tc, (hourlyStep now st1).1.hourlyTime = some tc ∧ tc ≤ now
        ∧ now - tc < 2 * MIN_TIME_BETWEEN_UPDATES
        ∧ (hourlyStep now st1).1.data_hourly = some ((env tc).hourly))
    ∧ (hourlyStep now st1).1.lastUpdate = st1.lastUpdate
    ∧ (hourlyStep now st1).1.dataTime = st1.dataTime
    ∧ (hourlyStep now st1).1.data = st1.data
    ∧ (hourlyStep now st1).1.unit_system = st1.unit_system
    ∧ (hourlyStep now st1).1.lastCurrently = st1.lastCurrently
    ∧ (hourlyStep now st1).1.currentlyTime = st1.currentlyTime
    ∧ (hourlyStep now st1).1.data_currently = st1.data_currently
    ∧ (hourlyStep now st1).1.lastMinutely = st1.lastMinutely
    ∧ (hourlyStep now st1).1.minutelyTime = st1.minutelyTime
    ∧ (hourlyStep now st1).1.data_minutely = st1.data_minutely
    ∧ (hourlyStep now st1).1.lastDaily = st1.lastDaily
    ∧ (hourlyStep now st1).1.dailyTime = st1.dailyTime
    ∧ (hourlyStep now st1).1.data_daily = st1.data_daily := by
  by_cases hf : fires st1.lastHourly now = true
  · unfold hourlyStep
    rw [if_pos hf]
    refine ⟨?_, ⟨tf1, hdt, htf, by omega, by rw [hdata]; rfl⟩, rfl, rfl, rfl, rfl,
      rfl, rfl, rfl, rfl, rfl, rfl, rfl, rfl, rfl⟩
    intro lc hlc
    obtain rfl : now = lc := by injection hlc
    exact ⟨le_refl _, tf1, hdt, htf, hfr, by rw [hdata]; rfl⟩
  · unfold hourlyStep
    rw [if_neg hf]
    refine ⟨subTracked_mono env Payload.hourly hS hle, ?_, rfl, rfl, rfl, rfl,
      rfl, rfl, rfl, rfl, rfl, rfl, rfl, rfl, rfl⟩
    cases hlast : st1.lastHourly with
    | none => rw [hlast] at hf; simp [fires] at hf
    | some lc0 =>
      have hthr : ¬ (MIN_TIME_BETWEEN_UPDATES ≤ now - lc0) := by
        intro hle2
        apply hf
        rw [hlast]
        simp [fires, hle2]
      obtain ⟨hlc0, tf, hft, htfl, hwin, hview⟩ := hS lc0 hlast
      exact ⟨tf, hft, by omega, by omega, hview⟩


theorem dailyStep_post (env : Nat → Payload) (tmax now : Nat) (st1 : FDState)
    (tf1 : Nat) (hdt : st1.dataTime = some tf1) (htf : tf1 ≤ now)
    (hfr : now - tf1 < MIN_TIME_BETWEEN_UPDATES) (hdata : st1.data = some (env tf1))
    (hS : SubTracked env Payload.daily tmax st1.lastDaily st1.dailyTime
      st1.data_daily)
    (hle : tmax ≤ now) :
    SubTracked env Payload.daily now (dailyStep now st1).1.lastDaily
      (dailyStep now st1).1.dailyTime (dailyStep now st1).1.data_daily
    ∧ (∃ tc, (dailyStep now st1).1.dailyTime = some tc ∧ tc ≤ now
        ∧ now - tc < 2 * MIN_TIME_BETWEEN_UPDATES
        ∧ (dailyStep now st1).1.data_daily = some ((env tc).daily))
    ∧ (dailyStep now st1).1.lastUpdate = st1.lastUpdate
    ∧ (dailyStep now st1).1.dataTime = st1.dataTime
    ∧ (dailyStep now st1).1.data = st1.data
    ∧ (dailyStep now st1).1.unit_system = st1.unit_system
    ∧ (dailyStep now st1).1.lastCurrently = st1.lastCurrently
    ∧ (dailyStep now st1).1.currentlyTime = st1.currentlyTime
    ∧ (dailyStep now st1).1.data_currently = st1.data_currently
    ∧ (dailyStep now st1).1.lastMinutely = st1.lastMinutely
    ∧ (dailyStep now st1).1.minutelyTime = st1.minutelyTime
    ∧ (dailyStep now st1).1.data_minutely = st1.data_minutely
    ∧ (dailyStep now st1).1.lastHourly = st1.lastHourly
    ∧ (dailyStep now st1).1.hourlyTime = st1.hourlyTime
    ∧ (dailyStep now st1).1.data_hourly = st1.data_hourly := by
  by_cases hf : fires st1.lastDaily now = true
  · unfold dailyStep
    rw [if_pos hf]
    refine ⟨?_, ⟨tf1, hdt, htf, by omega, by rw [hdata]; rfl⟩, rfl, rfl, rfl, rfl,
      rfl, rfl, rfl, rfl, rfl, rfl, rfl, rfl, rfl⟩
    intro lc hlc
    obtain rfl : now = lc := by injection hlc
    exact ⟨le_refl _, tf1, hdt, htf, hfr, by rw [hdata]; rfl⟩
  · unfold dailyStep
    rw [if_neg hf]
    refine ⟨subTracked_mono env Payload.daily hS hle, ?_, rfl, rfl, rfl, rfl,
      rfl, rfl, rfl, rfl, rfl, rfl, rfl, rfl, rfl⟩
    cases hlast : st1.lastDaily with
    | none => rw [hlast] at hf; simp [fires] at hf
    | some lc0 =>
      have hthr : ¬ (MIN_TIME_BETWEEN_UPDATES ≤ now - lc0) := by
        intro hle2
        apply hf
        rw [hlast]
        simp [fires, hle2]
      obtain ⟨hlc0, tf, hft, htfl, hwin, hview⟩ := hS lc0 hlast
      exact ⟨tf, hft, by omega, by omega, hview⟩

theorem sensorUpdate_post (env : Nat → Payload) (ty : String) (now tmax : Nat)
    (st : FDState) (h : CacheInv env tmax st) (hle : tmax ≤ now) :
    CacheInv env now (sensorUpdate env ty now st).1
    ∧ (∃ tf, (sensorUpdate env ty now st).1.dataTime = some tf ∧ tf ≤ now
        ∧ now - tf < MIN_TIME_BETWEEN_UPDATES
        ∧ (sensorUpdate env ty now st).1.data = some (env tf))
    ∧ (ty ≠ "minutely_summary" → ty ≠ "hourly_summary" → ty ≠ "daily_summary" →
        ∃ tc, (sensorUpdate env ty now st).1.currentlyTime = some tc ∧ tc ≤ now
          ∧ now - tc < 2 * MIN_TIME_BETWEEN_UPDATES
          ∧ (sensorUpdate env ty now st).1.data_currently
              = some ((env tc).currently))
    ∧ (ty = "minutely_summary" →
        ∃ tc, (sensorUpdate env ty now st).1.minutelyTime = some tc ∧ tc ≤ now
          ∧ now - tc < 2 * MIN_TIME_BETWEEN_UPDATES
          ∧ (sensorUpdate env ty now st).1.data_minutely = some ((env tc).minutely))
    ∧ (ty = "hourly_summary" →
        ∃ tc, (sensorUpdate env ty now st).1.hourlyTime = some tc ∧ tc ≤ now
          ∧ now - tc < 2 * MIN_TIME_BETWEEN_UPDATES
          ∧ (sensorUpdate env ty now st).1.data_hourly = some ((env tc).hourly))
    ∧ (ty = "daily_summary" →
        ∃ tc, (sensorUpdate env ty now st).1.dailyTime = some tc ∧ tc ≤ now
          ∧ now - tc < 2 * MIN_TIME_BETWEEN_UPDATES
          ∧ (sensorUpdate env ty now st).1.data_daily = some ((env tc).daily)) := by
  obtain ⟨⟨tf1, hLU, hDT, hTF, hFR, hDATA, hUS⟩, hc1, hc2, hc3, hm1, hm2, hm3,
    hh1, hh2, hh3, hd1, hd2, hd3⟩ := updateStep_post env tmax now st h hle
  by_cases hty1 : ty = "minutely_summary"

  · have hstep : (sensorUpdate env ty now st).1
        = (minutelyStep now (updateStep env now st).1).1 := by
      simp [sensorUpdate, hty1]
    rw [hstep]
    have hSown : SubTracked env Payload.minutely tmax
        (updateStep env now st).1.lastMinutely
        (updateStep env now st).1.minutelyTime
        (updateStep env now st).1.data_minutely := by
      rw [hm1, hm2, hm3]
      exact h.2.2.1
    obtain ⟨hSub, hCons, e1, e2, e3, e4, o1, o2, o3, o4, o5, o6, o7, o8, o9⟩ :=
      minutelyStep_post env tmax now (updateStep env now st).1 tf1 hDT hTF hFR
        hDATA hSown hle
    refine ⟨⟨⟨tf1, ?_, ?_, hTF, ?_, ?_⟩, ?_, ?_, ?_, ?_⟩,
      ⟨tf1, ?_, hTF, hFR, ?_⟩, ?_, ?_, ?_, ?_⟩
    · rw [e1]; exact hLU
    · rw [e2]; exact hDT
    · rw [e3]; exact hDATA
    · rw [e4]; exact hUS
    · rw [o1, o2, o3, hc1, hc2, hc3]
      exact subTracked_mono env Payload.currently h.2.1 hle
    · exact hSub
    · rw [o4, o5, o6, hh1, hh2, hh3]
      exact subTracked_mono env Payload.hourly h.2.2.2.1 hle
    · rw [o7, o8, o9, hd1, hd2, hd3]
      exact subTracked_mono env Payload.daily h.2.2.2.2 hle
    · rw [e2]; exact hDT
    · rw [e3]; exact hDATA
    · intro hne _ _; exact absurd hty1 hne
    · intro _; exact hCons
    · intro h2; exact absurd (hty1.symm.trans h2) (by decide)
    · intro h2; exact absurd (hty1.symm.trans h2) (by decide)
  by_cases hty2 : ty = "hourly_summary"
  · have hstep : (sensorUpdate env ty now st).1
        = (hourlyStep now (updateStep env now st).1).1 := by
      simp [sensorUpdate, hty1, hty2]
    rw [hstep]
    have hSown : SubTracked env Payload.hourly tmax
        (updateStep env now st).1.lastHourly
        (updateStep env now st).1.hourlyTime
        (updateStep env now st).1.data_hourly := by
      rw [hh1, hh2, hh3]
      exact h.2.2.2.1
    obtain ⟨hSub, hCons, e1, e2, e3, e4, o1, o2, o3, o4, o5, o6, o7, o8, o9⟩ :=
      hourlyStep_post env tmax now (updateStep env now st).1 tf1 hDT hTF hFR
        hDATA hSown hle
    refine ⟨⟨⟨tf1, ?_, ?_, hTF, ?_, ?_⟩, ?_, ?_, ?_, ?_⟩,
      ⟨tf1, ?_, hTF, hFR, ?_⟩, ?_, ?_, ?_, ?_⟩
    · rw [e1]; exact hLU
    · rw [e2]; exact hDT
    · rw [e3]; exact hDATA
    · rw [e4]; exact hUS
    · rw [o1, o2, o3, hc1, hc2, hc3]
      exact subTracked_mono env Payload.currently h.2.1 hle
    · rw [o4, o5, o6, hm1, hm2, hm3]
      exact subTracked_mono env Payload.minutely h.2.2.1 hle
    · exact hSub
    · rw [o7, o8, o9, hd1, hd2, hd3]
      exact subTracked_mono env Payload.daily h.2.2.2.2 hle
    · rw [e2]; exact hDT
    · rw [e3]; exact hDATA
    · intro _ hne _; exact absurd hty2 hne
    · intro h2; exact absurd h2 hty1
    · intro _; exact hCons
    · intro h2; exact absurd (hty2.symm.trans h2) (by decide)
  by_cases hty3 : ty = "daily_summary"
  · have hstep : (sensorUpdate env ty now st).1
        = (dailyStep now (updateStep env now st).1).1 := by
      simp [sensorUpdate, hty1, hty2, hty3]
    rw [hstep]
    have hSown : SubTracked env Payload.daily tmax
        (updateStep env now st).1.lastDaily
        (updateStep env now st).1.dailyTime
        (updateStep env now st).1.data_daily := by
      rw [hd1, hd2, hd3]
      exact h.2.2.2.2
    obtain ⟨hSub, hCons, e1, e2, e3, e4, o1, o2, o3, o4, o5, o6, o7, o8, o9⟩ :=
      dailyStep_post env tmax now (updateStep env now st).1 tf1 hDT hTF hFR
        hDATA hSown hle
    refine ⟨⟨⟨tf1, ?_, ?_, hTF, ?_, ?_⟩, ?_, ?_, ?_, ?_⟩,
      ⟨tf1, ?_, hTF, hFR, ?_⟩, ?_, ?_, ?_, ?_⟩
    · rw [e1]; exact hLU
    · rw [e2]; exact hDT
    · rw [e3]; exact hDATA
    · rw [e4]; exact hUS
    · rw [o1, o2, o3, hc1, hc2, hc3]
      exact subTracked_mono env Payload.currently h.2.1 hle
    · rw [o4, o5, o6, hm1, hm2, hm3]
      exact subTracked_mono env Payload.minutely h.2.2.1 hle
    · rw [o7, o8, o9, hh1, hh2, hh3]
      exact subTracked_mono env Payload.hourly h.2.2.2.1 hle
    · exact hSub
    · rw [e2]; exact hDT
    · rw [e3]; exact hDATA
    · intro _ _ hne; exact absurd hty3 hne
    · intro h2; exact absurd h2 hty1
    · intro h2; exact absurd h2 hty2
    · intro _; exact hCons
  · have hstep : (sensorUpdate env ty now st).1
        = (currentlyStep now (updateStep env now st).1).1 := by
      simp [sensorUpdate, hty1, hty2, hty3]
    rw [hstep]
    have hSown : SubTracked env Payload.currently tmax
        (updateStep env now st).1.lastCurrently
        (updateStep env now st).1.currentlyTime
        (updateStep env now st).1.data_currently := by
      rw [hc1, hc2, hc3]
      exact h.2.1
    obtain ⟨hSub, hCons, e1, e2, e3, e4, o1, o2, o3, o4, o5, o6, o7, o8, o9⟩ :=
      currentlyStep_post env tmax now (updateStep env now st).1 tf1 hDT hTF hFR
        hDATA hSown hle
    refine ⟨⟨⟨tf1, ?_, ?_, hTF, ?_, ?_⟩, ?_, ?_, ?_, ?_⟩,
      ⟨tf1, ?_, hTF, hFR, ?_⟩, ?_, ?_, ?_, ?_⟩
    · rw [e1]; exact hLU
    · rw [e2]; exact hDT
    · rw [e3]; exact hDATA
    · rw [e4]; exact hUS
    · exact hSub
    · rw [o1, o2, o3, hm1, hm2, hm3]
      exact subTracked_mono env Payload.minutely h.2.2.1 hle
    · rw [o4, o5, o6, hh1, hh2, hh3]
      exact subTracked_mono env Payload.hourly h.2.2.2.1 hle
    · rw [o7, o8, o9, hd1, hd2, hd3]
      exact subTracked_mono env Payload.daily h.2.2.2.2 hle
    · rw [e2]; exact hDT
    · rw [e3]; exact hDATA
    · intro _ _ _; exact hCons
    · intro h2; exact absurd h2 hty1
    · intro h2; exact absurd h2 hty2
    · intro h2; exact absurd h2 hty3

theorem initFD_inv (env : Nat → Payload) (t0 : Nat) :
    CacheInv env t0 (initFD env t0) := by
  have hinit : initFD env t0 =
      { data := some (env t0), unit_system := some (env t0).unitsFlag,
        data_currently := some ((env t0).currently), data_minutely := none,
        data_hourly := none, data_daily := none, lastUpdate := some t0,
        lastCurrently := some t0, lastMinutely := none, lastHourly := none,
        lastDaily := none, dataTime := some t0, currentlyTime := some t0,
        minutelyTime := none, hourlyTime := none, dailyTime := none } := rfl
  rw [hinit]
  refine ⟨⟨t0, rfl, rfl, le_refl _, rfl, rfl⟩, ?_, ?_, ?_, ?_⟩
  · intro lc hlc
    obtain rfl : t0 = lc := by injection hlc
    exact ⟨le_refl _, t0, rfl, le_refl _,
      by unfold MIN_TIME_BETWEEN_UPDATES; omega, rfl⟩
  · intro lc hlc
    cases hlc
  · intro lc hlc
    cases hlc
  · intro lc hlc
    cases hlc

theorem chrono_append (t0 now : Nat) (ty : String) (trace : List (String × Nat)) :
    chrono t0 (trace ++ [(ty, now)]) = true →
    chrono t0 trace = true ∧ endTime t0 trace ≤ now := by
  induction trace generalizing t0 with
  | nil =>
    intro h
    simp only [List.nil_append, chrono, Bool.and_eq_true, decide_eq_true_eq] at h
    exact ⟨rfl, h.1⟩
  | cons p rest ih =>
    intro h
    obtain ⟨x, t⟩ := p
    simp only [List.cons_append, chrono, Bool.and_eq_true, decide_eq_true_eq]
      at h ⊢
    obtain ⟨h1, h2⟩ := h
    obtain ⟨h3, h4⟩ := ih t h2
    exact ⟨⟨h1, h3⟩, h4⟩

theorem runReads_append (env : Nat → Payload) (st : FDState)
    (l1 l2 : List (String × Nat)) :
    runReads env st (l1 ++ l2) = runReads env (runReads env st l1) l2 := by
  induction l1 generalizing st with
  | nil => rfl
  | cons p rest ih =>
    obtain ⟨x, t⟩ := p
    simp only [List.cons_append, runReads]
    exact ih _

theorem runReads_inv (env : Nat → Payload) (trace : List (String × Nat)) :
    ∀ (st : FDState) (tmax : Nat), CacheInv env tmax st → chrono tmax trace = true →
    CacheInv env (endTime tmax trace) (runReads env st trace) := by
  induction trace with
  | nil =>
    intro st tmax h hc
    exact h
  | cons p rest ih =>
    intro st tmax h hc
    obtain ⟨x, t⟩ := p
    simp only [chrono, Bool.and_eq_true, decide_eq_true_eq] at hc
    obtain ⟨h1, h2⟩ := hc
    simp only [runReads, endTime]
    exact ih _ _ (sensorUpdate_post env x t tmax st h h1).1 h2

/-- C2 (amended): at every sensor read from the setup-produced cache, after the
read's `update()` call the cached full payload is less than one refresh interval
old; the sub-view the sensor consumes is re-extracted once its own extraction is a
full interval old, but because extraction can pick up a payload that is itself up to
one interval old, the consumed sub-view's content is only guaranteed to be less than
two refresh intervals old — not one, as the claim states. -/
theorem sensor_read_freshness (env : Nat → Payload) (t0 : Nat)
    (trace : List (String × Nat)) (ty : String) (now : Nat)
    (hc : chrono t0 (trace ++ [(ty, now)]) = true) :
    (∃ tf, (runReads env (initFD env t0) (trace ++ [(ty, now)])).dataTime = some tf
        ∧ tf ≤ now ∧ now - tf < MIN_TIME_BETWEEN_UPDATES
        ∧ (runReads env (initFD env t0) (trace ++ [(ty, now)])).data
            = some (env tf))
    ∧ (ty ≠ "minutely_summary" → ty ≠ "hourly_summary" → ty ≠ "daily_summary" →
        ∃ tc, (runReads env (initFD env t0) (trace ++ [(ty, now)])).currentlyTime
            = some tc ∧ tc ≤ now ∧ now - tc < 2 * MIN_TIME_BETWEEN_UPDATES
          ∧ (runReads env (initFD env t0) (trace ++ [(ty, now)])).data_currently
              = some ((env tc).currently))
    ∧ (ty = "minutely_summary" →
        ∃ tc, (runReads env (initFD env t0) (trace ++ [(ty, now)])).minutelyTime
            = some tc ∧ tc ≤ now ∧ now - tc < 2 * MIN_TIME_BETWEEN_UPDATES
          ∧ (runReads env (initFD env t0) (trace ++ [(ty, now)])).data_minutely
              = some ((env tc).minutely))
    ∧ (ty = "hourly_summary" →
        ∃ tc, (runReads env (initFD env t0) (trace ++ [(ty, now)])).hourlyTime
            = some tc ∧ tc ≤ now ∧ now - tc < 2 * MIN_TIME_BETWEEN_UPDATES
          ∧ (runReads env (initFD env t0) (trace ++ [(ty, now)])).data_hourly
              = some ((env tc).hourly))
    ∧ (ty = "daily_summary" →
        ∃ tc, (runReads env (initFD env t0) (trace ++ [(ty, now)])).dailyTime
            = some tc ∧ tc ≤ now ∧ now - tc < 2 * MIN_TIME_BETWEEN_UPDATES
          ∧ (runReads env (initFD env t0) (trace ++ [(ty, now)])).data_daily
              = some ((env tc).daily)) := by
  obtain ⟨hct, hle⟩ := chrono_append t0 now ty trace hc
  have hmid := runReads_inv env trace (initFD env t0) t0 (initFD_inv env t0) hct
  rw [runReads_append]
  have hone : runReads env (runReads env (initFD env t0) trace) [(ty, now)]
      = (sensorUpdate env ty now (runReads env (initFD env t0) trace)).1 := rfl
  rw [hone]
  obtain ⟨_, hfresh, hcur, hmin, hhour, hday⟩ :=
    sensorUpdate_post env ty now (endTime t0 trace)
      (runReads env (initFD env t0) trace) hmid hle
  exact ⟨hfresh, hcur, hmin, hhour, hday⟩

theorem sensor_read_freshness_witness :
    chrono 0 ([] ++ [("temperature", 0)]) = true
    ∧ ((∃ tf, (runReads envT (initFD envT 0)
            ([] ++ [("temperature", 0)])).dataTime = some tf
        ∧ tf ≤ 0 ∧ 0 - tf < MIN_TIME_BETWEEN_UPDATES
        ∧ (runReads envT (initFD envT 0) ([] ++ [("temperature", 0)])).data
            = some (envT tf))
    ∧ (("temperature" : String) ≠ "minutely_summary" →
        ("temperature" : String) ≠ "hourly_summary" →
        ("temperature" : String) ≠ "daily_summary" →
        ∃ tc, (runReads envT (initFD envT 0)
            ([] ++ [("temperature", 0)])).currentlyTime
            = some tc ∧ tc ≤ 0 ∧ 0 - tc < 2 * MIN_TIME_BETWEEN_UPDATES
          ∧ (runReads envT (initFD envT 0)
              ([] ++ [("temperature", 0)])).data_currently
              = some ((envT tc).currently))
    ∧ (("temperature" : String) = "minutely_summary" →
        ∃ tc, (runReads envT (initFD envT 0)
            ([] ++ [("temperature", 0)])).minutelyTime
            = some tc ∧ tc ≤ 0 ∧ 0 - tc < 2 * MIN_TIME_BETWEEN_UPDATES
          ∧ (runReads envT (initFD envT 0)
              ([] ++ [("temperature", 0)])).data_minutely
              = some ((envT tc).minutely))
    ∧ (("temperature" : String) = "hourly_summary" →
        ∃ tc, (runReads envT (initFD envT 0)
            ([] ++ [("temperature", 0)])).hourlyTime
            = some tc ∧ tc ≤ 0 ∧ 0 - tc < 2 * MIN_TIME_BETWEEN_UPDATES
          ∧ (runReads envT (initFD envT 0)
              ([] ++ [("temperature", 0)])).data_hourly
              = some ((envT tc).hourly))
    ∧ (("temperature" : String) = "daily_summary" →
        ∃ tc, (runReads envT (initFD envT 0)
            ([] ++ [("temperature", 0)])).dailyTime
            = some tc ∧ tc ≤ 0 ∧ 0 - tc < 2 * MIN_TIME_BETWEEN_UPDATES
          ∧ (runReads envT (initFD envT 0)
              ([] ++ [("temperature", 0)])).data_daily
              = some ((envT tc).daily))) :=
  ⟨by decide, sensor_read_freshness envT 0 [] "temperature" 0 (by decide)⟩

/-- Counterexample to C2 as stated: in the reachable trace where a daily-summary
sensor reads at t = 120 and a temperature sensor reads at t = 130 and again at
t = 249, the final read consumes the "currently" sub-view extracted from the payload
fetched at t = 120 — content 129 seconds old, beyond the 120-second interval — and
the read does not re-extract it (it still reflects the t = 120 payload, not the
payload refetched at t = 249). -/
theorem sensor_read_staleness_counterexample :
    (runReads envT (initFD envT 0)
        [("daily_summary", 120), ("temperature", 130),
         ("temperature", 249)]).currentlyTime = some 120
    ∧ (runReads envT (initFD envT 0)
        [("daily_summary", 120), ("temperature", 130),
         ("temperature", 249)]).data_currently = some ((envT 120).currently)
    ∧ (runReads envT (initFD envT 0)
        [("daily_summary", 120), ("temperature", 130),
         ("temperature", 249)]).dataTime = some 249
    ∧ MIN_TIME_BETWEEN_UPDATES < 249 - 120
    ∧ (envT 120).currently ≠ (envT 249).currently := by
  refine ⟨?_, ?_, ?_, ?_, ?_⟩ <;> decide
